import Mathlib

/-!
# Verification of the Bluetooth OBD-II hook (useBluetoothOBD.ts)

This file gives a shallow embedding of the vehicle-diagnostics core of the
repository: the response normalizer and PID decoder (parseOBDResponse), the
DTC codec (parseDTCCodes / convertHexToDTC with its description and severity
tables), one cycle of the poller (readOBDData plus the interval callback of
startDataPolling), the command channel (sendOBDCommand) as a small link-state
model, and the event trace of connectToDevice.

Modelling conventions: strings are lists of characters; JS numbers are exact
rationals (the arithmetic in the source stays well inside the exactly
representable range except for the fixed small divisions, whose exact rational
value we take as the semantics); the fallible BLE primitives are explicit
Option/Bool parameters.  Rational arithmetic is written with mkRat-based
helpers (jsAdd, jsMul) because those evaluate inside the kernel; bridge
lemmas identify them with the field operations of ℚ.
-/

/-- Whitespace characters removed by the response normalizer
(the ASCII members of the character class the source strips). -/
def isWS (c : Char) : Bool :=
  c = ' ' || c = '\t' || c = '\n' || c = '\r' || c = '\x0b' || c = '\x0c'

/-- ASCII upper-casing, as toUpperCase acts on the characters involved here. -/
def toUpperChar (c : Char) : Char :=
  if 'a' ≤ c ∧ c ≤ 'z' then Char.ofNat (c.toNat - 32) else c

/-- The normalization both parsers apply first: remove all whitespace,
then upper-case. -/
def cleanStr (s : List Char) : List Char :=
  (s.filter (fun c => !isWS c)).map toUpperChar

/-- The character class 0-9A-F used by the response regexes
(the response is upper-cased before matching). -/
def isHex (c : Char) : Bool :=
  (('0' ≤ c) && (c ≤ '9')) || (('A' ≤ c) && (c ≤ 'F'))

/-- Numeric value of an upper-case hexadecimal digit character. -/
def hexVal (c : Char) : Nat :=
  if ('0' ≤ c) && (c ≤ '9') then c.toNat - 48
  else if ('A' ≤ c) && (c ≤ 'F') then c.toNat - 55
  else 0

/-- Decimal digit character (JS template interpolation of a small number). -/
def digitChar (n : Nat) : Char := Char.ofNat (48 + n)

/-- Upper-case hexadecimal digit character. -/
def hexDigit (n : Nat) : Char :=
  if n < 10 then Char.ofNat (48 + n) else Char.ofNat (55 + n)

/-- The two upper-case hex digits of one byte: for n < 256 exactly what
toString(16).padStart(2, zero).toUpperCase() produces. -/
def hexByte (n : Nat) : List Char := [hexDigit (n / 16), hexDigit (n % 16)]

/-- Decimal rendering of a Nat below 100; this covers every value the DTC
converter interpolates (they are all at most 63). -/
def decStr (n : Nat) : List Char :=
  if n < 10 then [digitChar n] else [digitChar (n / 10), digitChar (n % 10)]

/-- parseInt of the two characters of s starting at index i, base 16,
in the guarded situations where both exist and are hex digits. -/
def byteAt (s : List Char) (i : Nat) : Nat :=
  match s.drop i with
  | c1 :: c2 :: _ => 16 * hexVal c1 + hexVal c2
  | _ => 0

/-- Kernel-computable addition on ℚ (identified with + by jsAdd_eq). -/
def jsAdd (x y : ℚ) : ℚ :=
  mkRat (x.num * (y.den : ℤ) + y.num * (x.den : ℤ)) (x.den * y.den)

/-- Kernel-computable multiplication on ℚ (identified with * by jsMul_eq). -/
def jsMul (x y : ℚ) : ℚ := mkRat (x.num * y.num) (x.den * y.den)

/-- Math.floor on the exact rational value of a JS number. -/
def jsFloor (q : ℚ) : ℤ := Int.fdiv q.num (q.den : ℤ)

/-- Math.round on the exact rational value: floor of q + 1/2
(ties round toward positive infinity, as in JS). -/
def jsRound (q : ℚ) : ℤ := jsFloor (jsAdd q (mkRat 1 2))

/-- The data-byte capture of the leftmost JS regex match of
41, two hex chars, then a greedy nonempty hex run, on the cleaned response.
The two characters after 41 are ANY hex pair - the source regex does not
compare them against the queried PID. -/
def findDataBytes : List Char → Option (List Char)
  | [] => none
  | c :: rest =>
    match rest with
    | r1 :: r2 :: r3 :: r4 :: tl =>
      if (c == '4') && (r1 == '1') && isHex r2 && isHex r3 && isHex r4 then
        some (List.takeWhile isHex (r4 :: tl))
      else findDataBytes rest
    | _ => findDataBytes rest

/-- PID string of the engine-RPM case of the decoder switch. -/
def pid0C : List Char := ['0', 'C']

/-- PID string of the vehicle-speed case. -/
def pid0D : List Char := ['0', 'D']

/-- PID string of the coolant-temperature case. -/
def pid05 : List Char := ['0', '5']

/-- PID string of the fuel-pressure case. -/
def pid0A : List Char := ['0', 'A']

/-- PID string of the engine-load case. -/
def pid04 : List Char := ['0', '4']

/-- parseOBDResponse: normalize the raw text, locate the data bytes with the
41-pattern regex, then decode per PID:
RPM ((a*256)+b)/4, speed a, coolant (a-40)*9/5+32, fuel pressure a*3,
engine load round(a*100/255).  Returns none when the pattern is absent, when
too few data-byte characters follow (4 for RPM, 2 otherwise), or when the pid
is not one of the five decoded cases.  The surrounding JS try/catch never
fires on this total function. -/
def parseOBDResponse (pid response : List Char) : Option ℚ :=
  match findDataBytes (cleanStr response) with
  | none => none
  | some db =>
    if pid = pid0C then
      if 4 ≤ db.length then
        some (mkRat ((byteAt db 0 * 256 + byteAt db 2 : ℕ) : ℤ) 4)
      else none
    else if pid = pid0D then
      if 2 ≤ db.length then some ((byteAt db 0 : ℕ) : ℚ) else none
    else if pid = pid05 then
      if 2 ≤ db.length then
        some (jsAdd (mkRat ((((byteAt db 0 : ℕ) : ℤ) - 40) * 9) 5) 32)
      else none
    else if pid = pid0A then
      if 2 ≤ db.length then some ((byteAt db 0 * 3 : ℕ) : ℚ) else none
    else if pid = pid04 then
      if 2 ≤ db.length then
        some ((jsRound (mkRat ((byteAt db 0 * 100 : ℕ) : ℤ) 255) : ℤ) : ℚ)
      else none
    else none

/-- Spec-side predicate (following the specification text, for comparison
with the implementation): the cleaned response contains, at some position,
the service-41 byte followed by the 2-hex-digit echo of the QUERIED pid,
followed by at least n hex characters of data. -/
def hasEchoMarker (pid : List Char) (n : Nat) : List Char → Bool
  | [] => false
  | c :: rest =>
    (decide ((c :: rest).take 2 = ['4', '1']) &&
      decide (((c :: rest).drop 2).take 2 = pid) &&
      decide (n ≤ (List.takeWhile isHex ((c :: rest).drop 4)).length)) ||
    hasEchoMarker pid n rest

/-- First character of a DTC: the category array indexed by firstByte / 64.
Indices 0-3 are the only reachable ones for a byte. -/
def catLetter (n : Nat) : Char :=
  if n = 0 then 'P' else if n = 1 then 'C' else if n = 2 then 'B' else 'U'

/-- convertHexToDTC on a 4-hex-digit group: category letter, then the
SECOND and THIRD characters interpolated as decimal numbers (the third is
firstByte % 16, which prints as TWO characters when it is 10 or more), then
the second byte as two upper-case hex digits. -/
def convertHexToDTC (hex : List Char) : List Char :=
  catLetter (byteAt hex 0 / 64) ::
    (decStr ((byteAt hex 0 % 64) / 16) ++ decStr (byteAt hex 0 % 16) ++
      hexByte (byteAt hex 2))

/-- The captures of the successive non-overlapping JS regex matches of
43 followed by four hex chars (global flag, exec loop): after a match the
search resumes AFTER the four captured characters, so consecutive 2-byte
groups that follow a first group are not matched unless they are themselves
preceded by 43. -/
def dtcGroupsAux : Nat → List Char → List (List Char)
  | _, [] => []
  | Nat.succ k, _ :: rest => dtcGroupsAux k rest
  | 0, c :: rest =>
    match rest with
    | r1 :: r2 :: r3 :: r4 :: r5 :: _ =>
      if (c == '4') && (r1 == '3') && isHex r2 && isHex r3 && isHex r4 && isHex r5 then
        [r2, r3, r4, r5] :: dtcGroupsAux 5 rest
      else dtcGroupsAux 0 rest
    | _ => dtcGroupsAux 0 rest

/-- The successive non-overlapping 43-group captures, starting at the
front of the cleaned response. -/
def dtcGroups (s : List Char) : List (List Char) := dtcGroupsAux 0 s

/-- Severity classification values. -/
inductive Severity where
  | low
  | medium
  | high
deriving DecidableEq, Repr

/-- The static high-severity membership list of getDTCSeverity. -/
def highSeverityCodes : List (List Char) :=
  [("P0171").toList, ("P0172").toList, ("P0300").toList, ("P0301").toList,
   ("P0302").toList, ("P0303").toList, ("P0304").toList]

/-- The static medium-severity membership list of getDTCSeverity. -/
def mediumSeverityCodes : List (List Char) :=
  [("P0420").toList, ("P0440").toList, ("P0442").toList, ("P0455").toList]

/-- getDTCSeverity: membership in the static lists, defaulting to low. -/
def getDTCSeverity (code : List Char) : Severity :=
  if code ∈ highSeverityCodes then Severity.high
  else if code ∈ mediumSeverityCodes then Severity.medium
  else Severity.low

/-- The static description table of getDTCDescription. -/
def dtcDescriptions : List (List Char × List Char) :=
  [(("P0420").toList, ("Catalyst System Efficiency Below Threshold").toList),
   (("P0171").toList, ("System Too Lean (Bank 1)").toList),
   (("P0172").toList, ("System Too Rich (Bank 1)").toList),
   (("P0300").toList, ("Random/Multiple Cylinder Misfire Detected").toList),
   (("P0301").toList, ("Cylinder 1 Misfire Detected").toList),
   (("P0302").toList, ("Cylinder 2 Misfire Detected").toList),
   (("P0303").toList, ("Cylinder 3 Misfire Detected").toList),
   (("P0304").toList, ("Cylinder 4 Misfire Detected").toList),
   (("P0440").toList, ("Evaporative Emission Control System Malfunction").toList),
   (("P0442").toList, ("Evaporative Emission Control System Leak Detected (Small Leak)").toList),
   (("P0455").toList, ("Evaporative Emission Control System Leak Detected (Large Leak)").toList),
   (("P0506").toList, ("Idle Control System RPM Lower Than Expected").toList),
   (("P0507").toList, ("Idle Control System RPM Higher Than Expected").toList)]

/-- getDTCDescription: table lookup, falling back to a generic label that
includes the literal code. -/
def getDTCDescription (code : List Char) : List Char :=
  match dtcDescriptions.find? (fun p => p.1 == code) with
  | some p => p.2
  | none => ("Diagnostic trouble code: ").toList ++ code

/-- One surfaced trouble code. -/
structure DTCCode where
  code : List Char
  description : List Char
  severity : Severity
deriving DecidableEq, Repr

/-- parseDTCCodes: normalize, take every 43-match group, convert, and keep
every code other than P0000. -/
def parseDTCCodes (response : List Char) : List DTCCode :=
  (dtcGroups (cleanStr response)).filterMap (fun g =>
    let dtcCode := convertHexToDTC g
    if dtcCode ≠ ("P0000").toList then
      some ⟨dtcCode, getDTCDescription dtcCode, getDTCSeverity dtcCode⟩
    else none)

/-- Just the code strings surfaced by parseDTCCodes. -/
def dtcCodes (response : List Char) : List (List Char) :=
  (parseDTCCodes response).map (fun d => d.code)

/-- The partial record built by one run of readOBDData: per-field presence
mirrors which keys were assigned on the JS object. -/
structure CycleData where
  rpm : Option ℚ
  speed : Option ℚ
  coolantTemp : Option ℚ
  fuelPressure : Option ℚ
  voltage : Option ℚ
  engineLoad : Option ℚ
deriving DecidableEq, Repr

/-- The rpm assignment of readOBDData: the field is present exactly when the
read did not throw, the decode succeeded, and the decoded value is
strictly positive; the stored value is Math.round of it.
A none argument models sendOBDCommand throwing. -/
def rpmField (resp : Option (List Char)) : Option ℚ :=
  match resp with
  | none => none
  | some r =>
    match parseOBDResponse pid0C r with
    | none => none
    | some v => if 0 < v then some ((jsRound v : ℤ) : ℚ) else none

/-- The speed assignment of readOBDData (guard: decoded value ≥ 0). -/
def speedField (resp : Option (List Char)) : Option ℚ :=
  match resp with
  | none => none
  | some r =>
    match parseOBDResponse pid0D r with
    | none => none
    | some v => if 0 ≤ v then some ((jsRound v : ℤ) : ℚ) else none

/-- The coolantTemp assignment of readOBDData (no extra guard). -/
def tempField (resp : Option (List Char)) : Option ℚ :=
  match resp with
  | none => none
  | some r =>
    match parseOBDResponse pid05 r with
    | none => none
    | some v => some ((jsRound v : ℤ) : ℚ)

/-- The engineLoad assignment of readOBDData (guard: decoded value ≥ 0). -/
def loadField (resp : Option (List Char)) : Option ℚ :=
  match resp with
  | none => none
  | some r =>
    match parseOBDResponse pid04 r with
    | none => none
    | some v => if 0 ≤ v then some ((jsRound v : ℤ) : ℚ) else none

/-- The voltage assignment of readOBDData: ALWAYS set, to the simulated
value 12.0 + random * 2 (the random draw is a parameter here). -/
def voltageField (vRand : ℚ) : Option ℚ :=
  some (jsAdd 12 (jsMul vRand 2))

/-- The fuelPressure assignment of readOBDData: no fuel-pressure PID is ever
read, so the falsy check always passes and the field is ALWAYS set to the
simulated 35 + floor(random * 10). -/
def fpField (fpRand : ℚ) : Option ℚ :=
  some (jsAdd 35 ((jsFloor (jsMul fpRand 10) : ℤ) : ℚ))

/-- readOBDData for one cycle, as a function of the four command/response
transactions (none models a throwing sendOBDCommand) and the two random
draws of the simulated fields.  Every per-PID read is individually
try/caught, so every failure just omits that key. -/
def readOBDData (rpmR spdR tmpR ldR : Option (List Char)) (vRand fpRand : ℚ) :
    CycleData :=
  ⟨rpmField rpmR, speedField spdR, tempField tmpR,
   fpField fpRand, voltageField vRand, loadField ldR⟩

/-- Whether an optional field contributes a key to the JS object. -/
def optCount (o : Option ℚ) : Nat :=
  match o with
  | none => 0
  | some _ => 1

/-- Object.keys(data).length for the cycle record. -/
def numFields (d : CycleData) : Nat :=
  optCount d.rpm + optCount d.speed + optCount d.coolantTemp +
    optCount d.fuelPressure + optCount d.voltage + optCount d.engineLoad

/-- The aggregated snapshot handed to onDataReceived. -/
structure OBDData where
  rpm : ℚ
  speed : ℚ
  coolantTemp : ℚ
  fuelPressure : ℚ
  voltage : ℚ
  engineLoad : ℚ
deriving DecidableEq, Repr

/-- The JS pattern x OR dflt on an optional numeric field: an absent field
AND a present zero both yield the default. -/
def jsOr (x : Option ℚ) (dflt : ℚ) : ℚ :=
  match x with
  | none => dflt
  | some v => if v = 0 then dflt else v

/-- The completeData object built by the polling callback
(voltage defaults to 12.4 = 62/5). -/
def snapshot (d : CycleData) : OBDData :=
  ⟨jsOr d.rpm 0, jsOr d.speed 0, jsOr d.coolantTemp 0,
   jsOr d.fuelPressure 0, jsOr d.voltage (mkRat 62 5), jsOr d.engineLoad 0⟩

/-- One tick of the startDataPolling interval callback: when connected (and
the characteristic is live, folded into the same flag), run readOBDData and
call onDataReceived with the completed snapshot if the record has at least
one key; none models a tick that emits nothing. -/
def pollCycle (connected : Bool) (rpmR spdR tmpR ldR : Option (List Char))
    (vRand fpRand : ℚ) : Option OBDData :=
  if connected then
    (let d := readOBDData rpmR spdR tmpR ldR vRand fpRand
     if 0 < numFields d then some (snapshot d) else none)
  else none

/-- State of the single BLE characteristic used for command exchange: the
command most recently written (the adapter computes its response from it). -/
structure LinkState where
  lastWritten : Option (List Char)
deriving DecidableEq

/-- writeWithResponse of a command string on the characteristic. -/
def writeStep (c : List Char) (_s : LinkState) : LinkState := ⟨some c⟩

/-- characteristic.read(): the adapter answers the last written command
(reply is the adapter's response function); empty if nothing was written. -/
def readStep (reply : List Char → List Char) (s : LinkState) : List Char :=
  match s.lastWritten with
  | some c => reply c
  | none => []

/-- sendOBDCommand run in isolation on a link: append the carriage return,
write, wait, read, and return the decoded response text VERBATIM (the
source only trims inside console.log; nothing is stripped from the
returned value). -/
def sendOBDCommand (reply : List Char → List Char) (command : List Char)
    (s : LinkState) : List Char × LinkState :=
  let s1 := writeStep (command ++ ['\r']) s
  (readStep reply s1, s1)

/-- Interleaving alphabet for two concurrent sendOBDCommand calls: the write
and the read of call 1 and of call 2.  sendOBDCommand contains no busy
check, so every interleaving is possible. -/
inductive Act where
  | w1
  | w2
  | r1
  | r2

/-- Execute a schedule of the two calls' steps against the shared
characteristic; the pair collects each call's returned response
(none = that call has not completed its read yet). -/
def runSched (reply : List Char → List Char) (c1 c2 : List Char) :
    List Act → LinkState → Option (List Char) × Option (List Char) →
      Option (List Char) × Option (List Char)
  | [], _, res => res
  | a :: rest, s, res =>
    match a with
    | Act.w1 => runSched reply c1 c2 rest (writeStep (c1 ++ ['\r']) s) res
    | Act.w2 => runSched reply c1 c2 rest (writeStep (c2 ++ ['\r']) s) res
    | Act.r1 => runSched reply c1 c2 rest s (some (readStep reply s), res.2)
    | Act.r2 => runSched reply c1 c2 rest s (res.1, some (readStep reply s))

/-- Observable events of connectToDevice, in program order. -/
inductive ConnEvent where
  | setConnecting : Bool → ConnEvent
  | setScanning : Bool → ConnEvent
  | stopScan : ConnEvent
  | setConnected : Bool → ConnEvent
  | connectionChange : Bool → ConnEvent
  | runInit : ConnEvent
  | startPolling : ConnEvent
  | errorReported : ConnEvent
deriving DecidableEq, Repr

/-- The event trace of connectToDevice: mgrReady is whether the BLE manager
ref is set; linkOk abstracts the connect / service-discovery calls
succeeding; charFound is whether a writable characteristic is found; initOk
is whether the ELM327 setup sequence (ATZ, ATE0, ATL0, ATS0, ATSP0) runs
without a throw.  Note the order on the success path: the connected state
and the connection-changed callback fire BEFORE the setup sequence runs,
and a setup failure reaches the catch block, which only clears isConnecting
and reports the error. -/
def connectToDevice (mgrReady linkOk charFound initOk : Bool) : List ConnEvent :=
  if ¬mgrReady then [ConnEvent.errorReported]
  else
    [ConnEvent.setConnecting true, ConnEvent.stopScan, ConnEvent.setScanning false] ++
      (if ¬linkOk then [ConnEvent.setConnecting false, ConnEvent.errorReported]
       else if ¬charFound then [ConnEvent.setConnecting false, ConnEvent.errorReported]
       else
         [ConnEvent.setConnected true, ConnEvent.setConnecting false,
          ConnEvent.connectionChange true, ConnEvent.runInit] ++
           (if initOk then [ConnEvent.startPolling]
            else [ConnEvent.setConnecting false, ConnEvent.errorReported]))

/-- The five PID strings the decoder switch handles. -/
def knownPids : List (List Char) := [pid0C, pid0D, pid05, pid0A, pid04]

/-- Hex characters of payload the decoder requires per PID
(two data bytes for RPM, one for the others). -/
def reqLen (pid : List Char) : Nat := if pid = pid0C then 4 else 2

/-- A response text containing no 41-pattern: every PID decode fails on it. -/
def noDataResp : List Char := ("NODATA").toList

/-- A well-formed speed response whose decoded value is exactly 0. -/
def zeroSpeedResp : List Char := ("410D00").toList

/-- The per-group code string the amended C6 formula produces: category
letter, (F mod 64) div 16 and F mod 16 both rendered in DECIMAL, then S as
two upper-case hex digits. -/
def dtcStr (F S : ℕ) : List Char :=
  catLetter (F / 64) :: (decStr ((F % 64) / 16) ++ decStr (F % 16) ++ hexByte S)

lemma jsAdd_eq (x y : ℚ) : jsAdd x y = x + y := by
  have hx : ((x.den : ℚ)) ≠ 0 := by
    exact_mod_cast x.den_nz
  have hy : ((y.den : ℚ)) ≠ 0 := by
    exact_mod_cast y.den_nz
  rw [jsAdd, Rat.mkRat_eq_div]
  conv_rhs => rw [← Rat.num_div_den x, ← Rat.num_div_den y]
  rw [div_add_div _ _ hx hy]
  push_cast
  ring_nf

lemma jsMul_eq (x y : ℚ) : jsMul x y = x * y := by
  have hx : ((x.den : ℚ)) ≠ 0 := by
    exact_mod_cast x.den_nz
  have hy : ((y.den : ℚ)) ≠ 0 := by
    exact_mod_cast y.den_nz
  rw [jsMul, Rat.mkRat_eq_div]
  conv_rhs => rw [← Rat.num_div_den x, ← Rat.num_div_den y]
  rw [div_mul_div_comm]
  push_cast
  ring_nf

lemma hexDigit_isHex {d : ℕ} (h : d < 16) : isHex (hexDigit d) = true := by
  interval_cases d <;> decide

lemma hexDigit_notWS {d : ℕ} (h : d < 16) : isWS (hexDigit d) = false := by
  interval_cases d <;> decide

lemma hexDigit_upper {d : ℕ} (h : d < 16) : toUpperChar (hexDigit d) = hexDigit d := by
  interval_cases d <;> decide

lemma hexVal_hexDigit {d : ℕ} (h : d < 16) : hexVal (hexDigit d) = d := by
  interval_cases d <;> decide

lemma cleanStr_id {s : List Char}
    (h : ∀ c ∈ s, isWS c = false ∧ toUpperChar c = c) : cleanStr s = s := by
  induction s with
  | nil => rfl
  | cons a t ih =>
    have ha := h a (List.mem_cons_self a t)
    have ht : ∀ c ∈ t, isWS c = false ∧ toUpperChar c = c := by
      intro c hc
      exact h c (List.mem_cons_of_mem a hc)
    have ih2 := ih ht
    unfold cleanStr at ih2 ⊢
    rw [List.filter_cons, if_pos (by rw [ha.1]; rfl), List.map_cons, ha.2, ih2]

lemma takeWhile_all {p : Char → Bool} {l : List Char}
    (h : ∀ c ∈ l, p c = true) : List.takeWhile p l = l := by
  induction l with
  | nil => rfl
  | cons a t ih =>
    simp [List.takeWhile_cons, h a (List.mem_cons_self a t),
      ih fun c hc => h c (List.mem_cons_of_mem a hc)]

lemma byteAt_zero (c1 c2 : Char) (t : List Char) :
    byteAt (c1 :: c2 :: t) 0 = 16 * hexVal c1 + hexVal c2 := rfl

lemma byteAt_two (c1 c2 c3 c4 : Char) (t : List Char) :
    byteAt (c1 :: c2 :: c3 :: c4 :: t) 2 = 16 * hexVal c3 + hexVal c4 := rfl

/-- C9: for every well-formed engine-RPM response consisting of the 41 0C
marker followed by data bytes A and B, parseOBDResponse decodes
((A*256)+B)/4. -/
theorem C9_rpm_formula (a b : ℕ) (ha : a < 256) (hb : b < 256) :
    parseOBDResponse pid0C (['4', '1', '0', 'C'] ++ hexByte a ++ hexByte b) =
      some (((a * 256 + b : ℕ) : ℚ) / 4) := by
  have h1 : a / 16 < 16 := by omega
  have h2 : a % 16 < 16 := by omega
  have h3 : b / 16 < 16 := by omega
  have h4 : b % 16 < 16 := by omega
  have hL : (['4', '1', '0', 'C'] ++ hexByte a ++ hexByte b) =
      '4' :: '1' :: '0' :: 'C' :: hexDigit (a / 16) :: hexDigit (a % 16) ::
        hexDigit (b / 16) :: hexDigit (b % 16) :: [] := by
    simp [hexByte]
  rw [hL]
  have hmem : ∀ c ∈ ('4' :: '1' :: '0' :: 'C' :: hexDigit (a / 16) ::
      hexDigit (a % 16) :: hexDigit (b / 16) :: hexDigit (b % 16) :: ([] : List Char)),
      isWS c = false ∧ toUpperChar c = c := by
    intro c hc
    simp only [List.mem_cons, List.not_mem_nil, or_false] at hc
    rcases hc with rfl | rfl | rfl | rfl | rfl | rfl | rfl | rfl
    · exact ⟨by decide, by decide⟩
    · exact ⟨by decide, by decide⟩
    · exact ⟨by decide, by decide⟩
    · exact ⟨by decide, by decide⟩
    · exact ⟨hexDigit_notWS h1, hexDigit_upper h1⟩
    · exact ⟨hexDigit_notWS h2, hexDigit_upper h2⟩
    · exact ⟨hexDigit_notWS h3, hexDigit_upper h3⟩
    · exact ⟨hexDigit_notWS h4, hexDigit_upper h4⟩
  have hfd : findDataBytes ('4' :: '1' :: '0' :: 'C' :: hexDigit (a / 16) ::
      hexDigit (a % 16) :: hexDigit (b / 16) :: hexDigit (b % 16) :: []) =
      some (hexDigit (a / 16) :: hexDigit (a % 16) :: hexDigit (b / 16) ::
        hexDigit (b % 16) :: []) := by
    simp [findDataBytes, List.takeWhile_cons,
      hexDigit_isHex h1, hexDigit_isHex h2, hexDigit_isHex h3, hexDigit_isHex h4,
      (by decide : isHex '0' = true), (by decide : isHex 'C' = true)]
  have hb0 : byteAt (hexDigit (a / 16) :: hexDigit (a % 16) :: hexDigit (b / 16) ::
      hexDigit (b % 16) :: []) 0 = a := by
    rw [byteAt_zero, hexVal_hexDigit h1, hexVal_hexDigit h2]
    omega
  have hb2 : byteAt (hexDigit (a / 16) :: hexDigit (a % 16) :: hexDigit (b / 16) ::
      hexDigit (b % 16) :: []) 2 = b := by
    rw [byteAt_two, hexVal_hexDigit h3, hexVal_hexDigit h4]
    omega
  simp only [parseOBDResponse, cleanStr_id hmem, hfd, hb0, hb2]
  norm_num
  rw [Rat.mkRat_eq_div]
  push_cast
  ring

/-- C9 witness: the spec example - data bytes 1A F8 (26, 248) after the
41 0C marker decode to ((26*256)+248)/4 = 1726 rpm. -/
theorem C9_rpm_formula_witness :
    (26 : ℕ) < 256 ∧ (248 : ℕ) < 256 ∧
      parseOBDResponse pid0C (['4', '1', '0', 'C'] ++ hexByte 26 ++ hexByte 248) =
        some 1726 := by
  refine ⟨by decide, by decide, ?_⟩
  rw [C9_rpm_formula 26 248 (by decide) (by decide)]
  norm_num

lemma isSome_if_le {n : ℕ} {l : List Char} {x : ℚ} :
    ((if n ≤ l.length then some x else none).isSome = true) ↔ n ≤ l.length := by
  split_ifs with h <;> simp [h]

/-- C4 (amended): parseOBDResponse returns a numeric value iff the pid is one
of the five decoded PIDs AND the cleaned response matches the 41-regex with
enough captured data characters (4 for RPM, 2 otherwise).  The two hex
characters after 41 are NOT required to echo the queried pid - see
C4_counterexample.  In particular the decoder returns none whenever the
pattern is absent or the capture is short, and it never raises (the
embedding is a total function). -/
theorem C4_marker_gating (pid resp : List Char) :
    (parseOBDResponse pid resp).isSome = true ↔
      (pid ∈ knownPids ∧ ∃ db, findDataBytes (cleanStr resp) = some db ∧
        reqLen pid ≤ db.length) := by
  cases hdb : findDataBytes (cleanStr resp) with
  | none => simp [parseOBDResponse, hdb]
  | some db =>
    simp only [parseOBDResponse, hdb]
    by_cases h1 : pid = pid0C
    · subst h1
      rw [if_pos rfl, isSome_if_le]
      simp [knownPids, reqLen]
    · rw [if_neg h1]
      by_cases h2 : pid = pid0D
      · subst h2
        rw [if_pos rfl, isSome_if_le]
        simp [knownPids, reqLen, h1]
      · rw [if_neg h2]
        by_cases h3 : pid = pid05
        · subst h3
          rw [if_pos rfl, isSome_if_le]
          simp [knownPids, reqLen, h1, h2]
        · rw [if_neg h3]
          by_cases h4 : pid = pid0A
          · subst h4
            rw [if_pos rfl, isSome_if_le]
            simp [knownPids, reqLen, h1, h2, h3]
          · rw [if_neg h4]
            by_cases h5 : pid = pid04
            · subst h5
              rw [if_pos rfl, isSome_if_le]
              simp [knownPids, reqLen, h1, h2, h3, h4]
            · rw [if_neg h5]
              simp [knownPids, h1, h2, h3, h4, h5]

/-- C4 counterexample: querying pid 0C against the response 410D1AF8 - whose
only 41-marker echoes pid 0D, not 0C - still returns the numeric value 1726.
The claimed gating on the echo of the QUERIED pid does not hold: the regex
accepts any two hex digits after 41. -/
theorem C4_counterexample :
    parseOBDResponse pid0C (("410D1AF8").toList) = some 1726 ∧
      hasEchoMarker pid0C 4 (cleanStr (("410D1AF8").toList)) = false := by
  exact ⟨by decide, by decide⟩

/-- C10: the rpm key of a readOBDData cycle is present iff the RPM read did
not throw, the decode succeeded, and the decoded value is strictly positive;
moreover a cycle whose RPM response decodes to exactly 0 yields a record
equal to that of a cycle whose RPM read failed outright. -/
theorem C10_rpm_gating (rpmR spdR tmpR ldR : Option (List Char)) (vRand fpRand : ℚ) :
    ((readOBDData rpmR spdR tmpR ldR vRand fpRand).rpm.isSome = true ↔
      ∃ r v, rpmR = some r ∧ parseOBDResponse pid0C r = some v ∧ 0 < v) ∧
    (∀ r, rpmR = some r → parseOBDResponse pid0C r = some 0 →
      readOBDData rpmR spdR tmpR ldR vRand fpRand =
        readOBDData none spdR tmpR ldR vRand fpRand) := by
  constructor
  · show (rpmField rpmR).isSome = true ↔ _
    cases rpmR with
    | none => simp [rpmField]
    | some r =>
      cases hp : parseOBDResponse pid0C r with
      | none => simp [rpmField, hp]
      | some v =>
        by_cases hv : (0 : ℚ) < v
        · simp [rpmField, hp, hv]
        · simp [rpmField, hp, hv]
  · intro r hr hp
    subst hr
    simp [readOBDData, rpmField, hp]

/-- C10 witness: the response 410C0000 decodes to rpm 0 and the resulting
cycle record equals the record of a failed RPM read. -/
theorem C10_rpm_gating_witness :
    readOBDData (some (("410C0000").toList)) none none none 0 0 =
      readOBDData none none none none 0 0 := by
  exact (C10_rpm_gating (some (("410C0000").toList)) none none none 0 0).2
    (("410C0000").toList) rfl (by decide)

lemma numFields_pos (rpmR spdR tmpR ldR : Option (List Char)) (vRand fpRand : ℚ) :
    0 < numFields (readOBDData rpmR spdR tmpR ldR vRand fpRand) := by
  simp only [numFields, readOBDData, voltageField, fpField, optCount]
  omega

/-- C1 (amended): a connected poll tick ALWAYS emits a snapshot, whatever the
four PID transactions do - readOBDData unconditionally populates the
simulated voltage and fuelPressure keys, so the nonempty check of the
polling callback always passes; cycles in which no PID decoded successfully
still emit. -/
theorem C1_always_emits (rpmR spdR tmpR ldR : Option (List Char)) (vRand fpRand : ℚ) :
    (pollCycle true rpmR spdR tmpR ldR vRand fpRand).isSome = true := by
  simp [pollCycle, numFields_pos rpmR spdR tmpR ldR vRand fpRand]

/-- C1 counterexample: on a cycle in which all four tracked PID decodes fail
(the adapter answered NODATA each time), the poller still delivers a
snapshot - made of the defaults and the two simulated fields - contradicting
the claim that such a cycle emits nothing. -/
theorem C1_counterexample :
    parseOBDResponse pid0C noDataResp = none ∧
    parseOBDResponse pid0D noDataResp = none ∧
    parseOBDResponse pid05 noDataResp = none ∧
    parseOBDResponse pid04 noDataResp = none ∧
    pollCycle true (some noDataResp) (some noDataResp) (some noDataResp)
      (some noDataResp) 0 0 = some ⟨0, 0, 0, 35, 12, 0⟩ := by
  exact ⟨by decide, by decide, by decide, by decide, by decide⟩

/-- C3 (amended): at Reading level the invariant holds - a response with no
41-pattern decodes to none for every pid - but the EMITTED snapshot fills
absent fields with defaults: a cycle whose speed read failed emits exactly
the same snapshot as a cycle whose speed genuinely decoded to 0, so the
emitted output does conflate fabricated defaults with real zero readings. -/
theorem C3_default_conflation (rpmR tmpR ldR : Option (List Char)) (vRand fpRand : ℚ)
    (bad : List Char) (h : parseOBDResponse pid0D bad = none) :
    (∀ pid r, findDataBytes (cleanStr r) = none → parseOBDResponse pid r = none) ∧
      pollCycle true rpmR (some bad) tmpR ldR vRand fpRand =
        pollCycle true rpmR (some zeroSpeedResp) tmpR ldR vRand fpRand := by
  constructor
  · intro pid r hr
    simp [parseOBDResponse, hr]
  · have hs1 : speedField (some bad) = none := by
      simp [speedField, h]
    have hs2 : speedField (some zeroSpeedResp) = some 0 := by decide
    simp only [pollCycle, if_true]
    rw [if_pos (numFields_pos rpmR (some bad) tmpR ldR vRand fpRand),
      if_pos (numFields_pos rpmR (some zeroSpeedResp) tmpR ldR vRand fpRand)]
    simp [snapshot, readOBDData, hs1, hs2, jsOr]

/-- C3 witness: instantiation of the amended claim at the NODATA response. -/
theorem C3_default_conflation_witness :
    parseOBDResponse pid0D noDataResp = none ∧
      pollCycle true none (some noDataResp) none none 0 0 =
        pollCycle true none (some zeroSpeedResp) none none 0 0 := by
  refine ⟨by decide, ?_⟩
  exact (C3_default_conflation none none none 0 0 noDataResp (by decide)).2

/-- C3 counterexample: the snapshot emitted after a failed speed read equals
the snapshot emitted after a real zero speed decode - both carry speed 0
(and the always-fabricated voltage and fuelPressure values), so the emitted
output contains defaults indistinguishable from real readings. -/
theorem C3_counterexample :
    parseOBDResponse pid0D noDataResp = none ∧
      parseOBDResponse pid0D zeroSpeedResp = some 0 ∧
      pollCycle true none (some noDataResp) none none 0 0 =
        pollCycle true none (some zeroSpeedResp) none none 0 0 ∧
      pollCycle true none (some noDataResp) none none 0 0 =
        some ⟨0, 0, 0, 35, 12, 0⟩ := by
  exact ⟨by decide, by decide, by decide, by decide⟩

/-- C2 (amended): connectToDevice reports the connection as established -
setConnected true and onConnectionChange true - as soon as a writable
characteristic is found, BEFORE the ELM327 setup sequence runs, and
regardless of whether that sequence subsequently succeeds; when it fails the
trace gains an error report but never a connectionChange false or any other
revocation of the connected state. -/
theorem C2_connect_before_init (linkOk charFound initOk : Bool) :
    ((ConnEvent.connectionChange true ∈ connectToDevice true linkOk charFound initOk) ↔
      (linkOk = true ∧ charFound = true)) ∧
    (ConnEvent.connectionChange false ∉ connectToDevice true linkOk charFound initOk) ∧
    (ConnEvent.setConnected false ∉ connectToDevice true linkOk charFound initOk) := by
  cases linkOk <;> cases charFound <;> cases initOk <;> decide

/-- C2 counterexample: with the link and characteristic fine but the
initialization sequence failing, the trace still contains setConnected true
and connectionChange true (fired before the sequence), and contains no
transition out of the connected state - contradicting the claim that the
connection is reported established only after initialization succeeds and
that a failing step leads to a non-ready state. -/
theorem C2_counterexample :
    ConnEvent.connectionChange true ∈ connectToDevice true true true false ∧
      ConnEvent.setConnected true ∈ connectToDevice true true true false ∧
      ConnEvent.errorReported ∈ connectToDevice true true true false ∧
      ConnEvent.connectionChange false ∉ connectToDevice true true true false ∧
      ConnEvent.setConnected false ∉ connectToDevice true true true false := by
  decide

/-- C5 (amended): sendOBDCommand has no mutual-exclusion guard, so two
overlapping calls both complete normally - neither is rejected - and under
the overlapping schedule w1 w2 r1 r2 the first call returns the adapter's
reply to the SECOND command: the pending transaction's response is
corrupted.  The sequential schedule w1 r1 w2 r2 returns each call its own
reply, confirming that the corruption is caused precisely by the overlap. -/
theorem C5_no_busy_rejection (reply : List Char → List Char) (c1 c2 : List Char) :
    runSched reply c1 c2 [Act.w1, Act.w2, Act.r1, Act.r2] ⟨none⟩ (none, none) =
      (some (reply (c2 ++ ['\r'])), some (reply (c2 ++ ['\r']))) ∧
    runSched reply c1 c2 [Act.w1, Act.r1, Act.w2, Act.r2] ⟨none⟩ (none, none) =
      (some (reply (c1 ++ ['\r'])), some (reply (c2 ++ ['\r']))) := by
  exact ⟨rfl, rfl⟩

/-- C5 counterexample: with an echoing adapter and the overlapping schedule,
the first send call completes (it is not rejected with any ChannelBusy-like
failure: sendOBDCommand contains no such check) and its returned response is
the reply to the second command - not to its own - so the pending
transaction's response IS corrupted, contradicting both halves of the
claim. -/
theorem C5_counterexample :
    (runSched (fun c => 'R' :: c) (("010C").toList) (("010D").toList)
        [Act.w1, Act.w2, Act.r1, Act.r2] ⟨none⟩ (none, none)).1 =
      some (('R' :: ("010D").toList) ++ ['\r']) ∧
    (runSched (fun c => 'R' :: c) (("010C").toList) (("010D").toList)
        [Act.w1, Act.w2, Act.r1, Act.r2] ⟨none⟩ (none, none)).1 ≠
      some (('R' :: ("010C").toList) ++ ['\r']) ∧
    (runSched (fun c => 'R' :: c) (("010C").toList) (("010D").toList)
        [Act.w1, Act.w2, Act.r1, Act.r2] ⟨none⟩ (none, none)).2 ≠ none := by
  refine ⟨?_, by decide, by decide⟩
  decide

/-- C8 (amended): sendOBDCommand returns the adapter's raw response text
verbatim - the echoed input and the prompt character are NOT stripped (the
only trimming in the source is inside a console.log). -/
theorem C8_verbatim_response (reply : List Char → List Char) (command : List Char)
    (s : LinkState) :
    (sendOBDCommand reply command s).1 = reply (command ++ ['\r']) := by
  rfl

/-- C8 counterexample: an adapter whose reply echoes the command and ends
with the prompt character: the value sendOBDCommand returns still starts
with the echoed command and still contains the prompt character, so the
claimed stripping does not happen. -/
theorem C8_counterexample :
    (sendOBDCommand (fun c => c ++ ("410C1AF8\r\r>").toList) (("010C").toList)
        ⟨none⟩).1 = ("010C\r410C1AF8\r\r>").toList ∧
      '>' ∈ (sendOBDCommand (fun c => c ++ ("410C1AF8\r\r>").toList)
        (("010C").toList) ⟨none⟩).1 ∧
      ((sendOBDCommand (fun c => c ++ ("410C1AF8\r\r>").toList) (("010C").toList)
        ⟨none⟩).1).take 5 = ("010C\r").toList := by
  exact ⟨by decide, by decide, by decide⟩

lemma catLetter_eq_P (n : ℕ) : catLetter n = 'P' ↔ n = 0 := by
  unfold catLetter
  split_ifs with h0 h1 h2
  · simp [h0]
  · simp [show ('C' : Char) ≠ 'P' from by decide, h0]
  · simp [show ('B' : Char) ≠ 'P' from by decide, h0]
  · simp [show ('U' : Char) ≠ 'P' from by decide, h0]

lemma digitChar_eq_zero (x : ℕ) (h : x < 10) : digitChar x = '0' ↔ x = 0 := by
  interval_cases x <;> decide

lemma hexDigit_eq_zero (x : ℕ) (h : x < 16) : hexDigit x = '0' ↔ x = 0 := by
  interval_cases x <;> decide

lemma dtcStr_eq_P0000 (F S : ℕ) (hF : F < 256) (hS : S < 256) :
    dtcStr F S = ("P0000").toList ↔ (F = 0 ∧ S = 0) := by
  rw [show (("P0000").toList) = ['P', '0', '0', '0', '0'] from rfl]
  constructor
  · intro h
    unfold dtcStr at h
    have hx : (F % 64) / 16 < 10 := by omega
    rw [show decStr ((F % 64) / 16) = [digitChar ((F % 64) / 16)] from by
      unfold decStr; rw [if_pos hx]] at h
    by_cases hy : F % 16 < 10
    · rw [show decStr (F % 16) = [digitChar (F % 16)] from by
        unfold decStr; rw [if_pos hy]] at h
      simp only [hexByte, List.cons_append, List.nil_append, List.cons.injEq,
        and_true] at h
      obtain ⟨hc, h1, h2, h3, h4⟩ := h
      have e0 : F / 64 = 0 := (catLetter_eq_P _).mp hc
      have e1 : (F % 64) / 16 = 0 := (digitChar_eq_zero _ hx).mp h1
      have e2 : F % 16 = 0 := (digitChar_eq_zero _ hy).mp h2
      have e3 : S / 16 = 0 := (hexDigit_eq_zero _ (by omega)).mp h3
      have e4 : S % 16 = 0 := (hexDigit_eq_zero _ (by omega)).mp h4
      omega
    · rw [show decStr (F % 16) = [digitChar ((F % 16) / 10), digitChar ((F % 16) % 10)] from by
        unfold decStr; rw [if_neg hy]] at h
      have hlen := congrArg List.length h
      simp [hexByte] at hlen
  · rintro ⟨rfl, rfl⟩
    decide

lemma convertHexToDTC_bytes (F S : ℕ) (hF : F < 256) (hS : S < 256) :
    convertHexToDTC [hexDigit (F / 16), hexDigit (F % 16), hexDigit (S / 16),
      hexDigit (S % 16)] = dtcStr F S := by
  unfold convertHexToDTC dtcStr
  rw [byteAt_zero, byteAt_two,
    hexVal_hexDigit (show F / 16 < 16 by omega),
    hexVal_hexDigit (show F % 16 < 16 by omega),
    hexVal_hexDigit (show S / 16 < 16 by omega),
    hexVal_hexDigit (show S % 16 < 16 by omega),
    show 16 * (F / 16) + F % 16 = F from by omega,
    show 16 * (S / 16) + S % 16 = S from by omega]

lemma hexDigit_clean {d : ℕ} (h : d < 16) :
    isWS (hexDigit d) = false ∧ toUpperChar (hexDigit d) = hexDigit d :=
  ⟨hexDigit_notWS h, hexDigit_upper h⟩

lemma dtcGroups_one (d1 d2 d3 d4 : Char) (h1 : isHex d1 = true) (h2 : isHex d2 = true)
    (h3 : isHex d3 = true) (h4 : isHex d4 = true) :
    dtcGroups ('4' :: '3' :: d1 :: d2 :: d3 :: d4 :: []) = [[d1, d2, d3, d4]] := by
  have hstep : dtcGroups ('4' :: '3' :: d1 :: d2 :: d3 :: d4 :: []) =
      if ('4' == '4') && ('3' == '3') && isHex d1 && isHex d2 && isHex d3 && isHex d4 then
        [d1, d2, d3, d4] :: dtcGroupsAux 5 ('3' :: d1 :: d2 :: d3 :: d4 :: [])
      else dtcGroupsAux 0 ('3' :: d1 :: d2 :: d3 :: d4 :: []) := rfl
  rw [hstep, h1, h2, h3, h4]
  rfl

lemma dtcGroups_two (d1 d2 d3 d4 e1 e2 e3 e4 : Char)
    (h1 : isHex d1 = true) (h2 : isHex d2 = true)
    (h3 : isHex d3 = true) (h4 : isHex d4 = true) :
    dtcGroups ('4' :: '3' :: d1 :: d2 :: d3 :: d4 :: e1 :: e2 :: e3 :: e4 :: []) =
      [[d1, d2, d3, d4]] := by
  have hstep : dtcGroups ('4' :: '3' :: d1 :: d2 :: d3 :: d4 :: e1 :: e2 :: e3 :: e4 :: []) =
      if ('4' == '4') && ('3' == '3') && isHex d1 && isHex d2 && isHex d3 && isHex d4 then
        [d1, d2, d3, d4] ::
          dtcGroupsAux 5 ('3' :: d1 :: d2 :: d3 :: d4 :: e1 :: e2 :: e3 :: e4 :: [])
      else dtcGroupsAux 0 ('3' :: d1 :: d2 :: d3 :: d4 :: e1 :: e2 :: e3 :: e4 :: []) := rfl
  rw [hstep, h1, h2, h3, h4]
  rfl

/-- C6 (amended): for a Mode 03 response 43 followed by one 2-byte group
with bytes F and S, the surfaced code is the category letter, then
(F mod 64) div 16 in decimal, then F mod 16 in decimal - TWO characters
when F mod 16 is 10 or more, so the code is not always 5 characters - then
S as two upper-case hex digits; and the group is discarded exactly when it
is the all-zero group (its code is the P0000 empty slot). -/
theorem C6_dtc_format (F S : ℕ) (hF : F < 256) (hS : S < 256) :
    dtcCodes (['4', '3'] ++ hexByte F ++ hexByte S) =
      if F = 0 ∧ S = 0 then [] else [dtcStr F S] := by
  have hd1 : F / 16 < 16 := by omega
  have hd2 : F % 16 < 16 := by omega
  have hd3 : S / 16 < 16 := by omega
  have hd4 : S % 16 < 16 := by omega
  have hL : (['4', '3'] ++ hexByte F ++ hexByte S) =
      '4' :: '3' :: hexDigit (F / 16) :: hexDigit (F % 16) :: hexDigit (S / 16) ::
        hexDigit (S % 16) :: [] := by
    simp [hexByte]
  rw [hL]
  have hmem : ∀ c ∈ ('4' :: '3' :: hexDigit (F / 16) :: hexDigit (F % 16) ::
      hexDigit (S / 16) :: hexDigit (S % 16) :: ([] : List Char)),
      isWS c = false ∧ toUpperChar c = c := by
    intro c hc
    simp only [List.mem_cons, List.not_mem_nil, or_false] at hc
    rcases hc with rfl | rfl | rfl | rfl | rfl | rfl
    · exact ⟨by decide, by decide⟩
    · exact ⟨by decide, by decide⟩
    · exact hexDigit_clean hd1
    · exact hexDigit_clean hd2
    · exact hexDigit_clean hd3
    · exact hexDigit_clean hd4
  have hgroups := dtcGroups_one _ _ _ _ (hexDigit_isHex hd1) (hexDigit_isHex hd2)
    (hexDigit_isHex hd3) (hexDigit_isHex hd4)
  have hconv := convertHexToDTC_bytes F S hF hS
  unfold dtcCodes parseDTCCodes
  rw [cleanStr_id hmem, hgroups]
  simp only [List.filterMap_cons, List.filterMap_nil, hconv]
  by_cases h00 : F = 0 ∧ S = 0
  · rw [if_pos h00, if_neg (fun hne => hne ((dtcStr_eq_P0000 F S hF hS).mpr h00))]
    rfl
  · rw [if_neg h00, if_pos (fun hc => h00 ((dtcStr_eq_P0000 F S hF hS).mp hc))]
    rfl

/-- C6 witness: group 01 06 surfaces exactly P0106, and the all-zero group
00 00 is discarded. -/
theorem C6_dtc_format_witness :
    dtcCodes (['4', '3'] ++ hexByte 1 ++ hexByte 6) = [("P0106").toList] ∧
      dtcCodes (['4', '3'] ++ hexByte 0 ++ hexByte 0) = [] := by
  constructor
  · rw [C6_dtc_format 1 6 (by decide) (by decide)]
    decide
  · rw [C6_dtc_format 0 0 (by decide) (by decide)]
    decide

/-- C6 counterexample: the group 0A 00 (F = 10, S = 0) surfaces the
6-character code P01000 - the third position is interpolated in decimal -
so the surfaced code is not the claimed 5-character string. -/
theorem C6_counterexample :
    dtcCodes (("430A00").toList) = [("P01000").toList] ∧
      (("P01000").toList).length = 6 := by
  exact ⟨by decide, by decide⟩

/-- C7 (amended): for a Mode 03 response 43 followed by two consecutive
2-byte groups, only the FIRST group is decoded and surfaced (unless it is
the all-zero slot); the second group is skipped entirely, because the
regex resumes after the first captured group and the remaining four
characters can no longer match 43 plus four hex digits. -/
theorem C7_first_group_only (F1 S1 F2 S2 : ℕ) (hF1 : F1 < 256) (hS1 : S1 < 256)
    (hF2 : F2 < 256) (hS2 : S2 < 256) :
    dtcCodes (['4', '3'] ++ hexByte F1 ++ hexByte S1 ++ hexByte F2 ++ hexByte S2) =
      if F1 = 0 ∧ S1 = 0 then [] else [dtcStr F1 S1] := by
  have hd1 : F1 / 16 < 16 := by omega
  have hd2 : F1 % 16 < 16 := by omega
  have hd3 : S1 / 16 < 16 := by omega
  have hd4 : S1 % 16 < 16 := by omega
  have he1 : F2 / 16 < 16 := by omega
  have he2 : F2 % 16 < 16 := by omega
  have he3 : S2 / 16 < 16 := by omega
  have he4 : S2 % 16 < 16 := by omega
  have hL : (['4', '3'] ++ hexByte F1 ++ hexByte S1 ++ hexByte F2 ++ hexByte S2) =
      '4' :: '3' :: hexDigit (F1 / 16) :: hexDigit (F1 % 16) :: hexDigit (S1 / 16) ::
        hexDigit (S1 % 16) :: hexDigit (F2 / 16) :: hexDigit (F2 % 16) ::
        hexDigit (S2 / 16) :: hexDigit (S2 % 16) :: [] := by
    simp [hexByte]
  rw [hL]
  have hmem : ∀ c ∈ ('4' :: '3' :: hexDigit (F1 / 16) :: hexDigit (F1 % 16) ::
      hexDigit (S1 / 16) :: hexDigit (S1 % 16) :: hexDigit (F2 / 16) ::
      hexDigit (F2 % 16) :: hexDigit (S2 / 16) :: hexDigit (S2 % 16) :: ([] : List Char)),
      isWS c = false ∧ toUpperChar c = c := by
    intro c hc
    simp only [List.mem_cons, List.not_mem_nil, or_false] at hc
    rcases hc with rfl | rfl | rfl | rfl | rfl | rfl | rfl | rfl | rfl | rfl
    · exact ⟨by decide, by decide⟩
    · exact ⟨by decide, by decide⟩
    · exact hexDigit_clean hd1
    · exact hexDigit_clean hd2
    · exact hexDigit_clean hd3
    · exact hexDigit_clean hd4
    · exact hexDigit_clean he1
    · exact hexDigit_clean he2
    · exact hexDigit_clean he3
    · exact hexDigit_clean he4
  have hgroups := dtcGroups_two (hexDigit (F1 / 16)) (hexDigit (F1 % 16))
    (hexDigit (S1 / 16)) (hexDigit (S1 % 16)) (hexDigit (F2 / 16)) (hexDigit (F2 % 16))
    (hexDigit (S2 / 16)) (hexDigit (S2 % 16)) (hexDigit_isHex hd1) (hexDigit_isHex hd2)
    (hexDigit_isHex hd3) (hexDigit_isHex hd4)
  have hconv := convertHexToDTC_bytes F1 S1 hF1 hS1
  unfold dtcCodes parseDTCCodes
  rw [cleanStr_id hmem, hgroups]
  simp only [List.filterMap_cons, List.filterMap_nil, hconv]
  by_cases h00 : F1 = 0 ∧ S1 = 0
  · rw [if_pos h00, if_neg (fun hne => hne ((dtcStr_eq_P0000 F1 S1 hF1 hS1).mpr h00))]
    rfl
  · rw [if_neg h00, if_pos (fun hc => h00 ((dtcStr_eq_P0000 F1 S1 hF1 hS1).mp hc))]
    rfl

/-- C7 witness: 43 followed by groups 01 06 and 03 00 surfaces only P0106. -/
theorem C7_first_group_only_witness :
    dtcCodes (['4', '3'] ++ hexByte 1 ++ hexByte 6 ++ hexByte 3 ++ hexByte 0) =
      [("P0106").toList] := by
  rw [C7_first_group_only 1 6 3 0 (by decide) (by decide) (by decide) (by decide)]
  decide

/-- C7 counterexample: the response 43 01 06 03 00 carries the two non-empty
groups 0106 and 0300, but only P0106 is surfaced; P0300 is missing from the
output, contradicting the claim that every group is decoded. -/
theorem C7_counterexample :
    dtcCodes (("4301060300").toList) = [("P0106").toList] ∧
      ("P0300").toList ∉ dtcCodes (("4301060300").toList) := by
  exact ⟨by decide, by decide⟩
